import Mathlib

/-!
Verification development for the PA-CHECK-MM workflow system.

The repository ships a Next.js frontend (under `src/frontend/`) that talks to
a workflow/rule engine backend through the typed API client
`src/frontend/app/api/apiService.ts`.  The backend core (rule engine,
workflow engine, definition validation) is documented in the repository but
its source is not part of the tree; where a property concerns that core, the
relevant operation is modelled from the specification and the definition says
so in its doc comment.

Frontend TypeScript values are embedded shallowly: interfaces become
structures, string-union types become inductives, `Record<string, any>`
becomes an association list over a JSON-like value type, and JavaScript
truthiness on strings (`!s`) becomes an emptiness test.
-/

namespace PACheck

/-- JSON-like document values: the shape of `Record<string, any>` fields and
of the structured document form exchanged with the backend. -/
inductive DVal where
  | str : String → DVal
  | boolean : Bool → DVal
  | num : Int → DVal
  | arr : List DVal → DVal
  | obj : List (String × DVal) → DVal

namespace Frontend

/-- Embeds the status union of `WorkflowInstance` in
`src/frontend/app/api/apiService.ts` (line 37):
`status: 'active' | 'completed' | 'terminated'`. -/
inductive InstanceStatus where
  | active
  | completed
  | terminated
deriving DecidableEq, Repr

/-- The string carried by each member of the status union type. -/
def InstanceStatus.toString : InstanceStatus → String
  | .active => "active"
  | .completed => "completed"
  | .terminated => "terminated"

/-- All members of the status union type of `apiService.ts`. -/
def InstanceStatus.all : List InstanceStatus :=
  [.active, .completed, .terminated]

/-- Embeds `WorkflowState` from `src/frontend/app/api/apiService.ts`
(lines 15-21). -/
structure WorkflowState where
  id : String
  name : String
  description : String
  is_initial : Bool
  is_final : Bool
deriving DecidableEq, Repr

/-- Embeds `WorkflowTransition` from `src/frontend/app/api/apiService.ts`
(lines 23-30); the optional `conditions?: string[]` field is an `Option`. -/
structure WorkflowTransition where
  id : String
  name : String
  description : String
  from_state_id : String
  to_state_id : String
  conditions : Option (List String)
deriving DecidableEq, Repr

/-- Embeds `WorkflowDefinition` from `src/frontend/app/api/apiService.ts`
(lines 4-13). -/
structure WorkflowDefinition where
  id : String
  name : String
  description : String
  version : String
  states : List WorkflowState
  transitions : List WorkflowTransition
  created_at : String
  updated_at : String
deriving DecidableEq, Repr

/-- Embeds `WorkflowInstance` from `src/frontend/app/api/apiService.ts`
(lines 32-40); `data: Record<string, any>` becomes an association list. -/
structure WorkflowInstance where
  id : String
  workflow_definition_id : String
  current_state_id : String
  data : List (String × DVal)
  status : InstanceStatus
  created_at : String
  updated_at : String

/-- Embeds `WorkflowHistoryEntry` from `src/frontend/app/api/apiService.ts`
(lines 42-50): `from_state_id` and `transition_id` are nullable. -/
structure WorkflowHistoryEntry where
  id : String
  workflow_instance_id : String
  from_state_id : Option String
  to_state_id : String
  transition_id : Option String
  timestamp : String
  data : List (String × DVal)

/-- Embeds `getStatusColor` from
`src/frontend/app/workflow-instances/page.tsx` (lines 57-68): the chip color
chosen for an instance status string. -/
def getStatusColor (status : String) : String :=
  if status = "active" then "primary"
  else if status = "completed" then "success"
  else if status = "terminated" then "error"
  else "default"

/-- Embeds the status-chip color expression of
`src/frontend/app/workflow-instances/[id]/page.tsx` (lines 218-224):
`active` is primary, `completed` is success, anything else is error. -/
def detailStatusColor (status : InstanceStatus) : String :=
  if status = .active then "primary"
  else if status = .completed then "success"
  else "error"

/-- Embeds the state-type chip of the definition detail page
(`WorkflowDefinitionDetailPage`, `src/unnamed/part_000` lines 137-145):
a state is labelled by its `is_initial` and `is_final` flags, with a
dedicated label when both are set. -/
def stateKindLabel (s : WorkflowState) : String :=
  if s.is_initial && s.is_final then "Initial & Final"
  else if s.is_initial then "Initial"
  else if s.is_final then "Final"
  else "Normal"

/-- Embeds `getAvailableTransitions` from
`src/frontend/app/workflow-instances/[id]/page.tsx` (lines 163-169):
with a loaded definition and instance it keeps exactly the definition
transitions whose `from_state_id` is the instance's current state; while
either is still undefined it returns the empty list. -/
def getAvailableTransitions (definition : Option WorkflowDefinition)
    (inst : Option WorkflowInstance) : List WorkflowTransition :=
  match definition, inst with
  | some d, some i =>
      d.transitions.filter (fun t => t.from_state_id = i.current_state_id)
  | _, _ => []

/-! ### StateDiagram (`src/frontend/app/workflow-definitions/components/StateDiagram.tsx`)

The diagram component has its own local `State` and `Transition` interfaces
with optional `id` fields.  JavaScript string truthiness (`s || d` picks `d`
when `s` is `undefined` or the empty string) is embedded explicitly.  The
circular-layout coordinates (`Math.cos`/`Math.sin` floating point) and the
purely visual style fields are rendering attributes with no bearing on node
or edge identity and are not part of the embedding. -/

/-- The diagram's local `State` interface (`StateDiagram.tsx` lines 16-21);
the optional booleans are embedded as `Bool` since `undefined` and `false`
behave identically in every truthiness test the component performs. -/
structure DiagramState where
  id : Option String
  name : String
  is_initial : Bool
  is_final : Bool
deriving DecidableEq, Repr

/-- The diagram's local `Transition` interface (`StateDiagram.tsx`
lines 23-27). -/
structure DiagramTransition where
  id : Option String
  name : String
  from_state_id : String
  to_state_id : String
deriving DecidableEq, Repr

/-- A produced ReactFlow node, restricted to its identifying fields. -/
structure DiagramNode where
  id : String
  label : String
  className : String
deriving DecidableEq, Repr

/-- A produced ReactFlow edge, restricted to its identifying fields. -/
structure DiagramEdge where
  id : String
  source : String
  target : String
  label : String
deriving DecidableEq, Repr

/-- JavaScript `a || b` on an optional string: `b` when `a` is `undefined`
or the empty string. -/
def jsStringOr (a : Option String) (b : String) : String :=
  match a with
  | none => b
  | some s => if s = "" then b else s

/-- The node built for one state at one list index, following the body of
`createNodes` (`StateDiagram.tsx` lines 40-74): the node id is
`state.id || index.toString()` and the className is derived from the
`is_initial` / `is_final` flags. -/
def mkNode (index : Nat) (s : DiagramState) : DiagramNode :=
  { id := jsStringOr s.id (toString index)
    label := s.name
    className :=
      if s.is_final then
        if s.is_initial then "initial-final-state" else "final-state"
      else
        if s.is_initial then "initial-state" else "" }

/-- The indexed traversal of `states.map((state, index) => ...)`. -/
def createNodesAux : Nat → List DiagramState → List DiagramNode
  | _, [] => []
  | i, s :: ss => mkNode i s :: createNodesAux (i + 1) ss

/-- Embeds `createNodes` (`StateDiagram.tsx` lines 40-74): one node per
state, built by `mkNode` at the state's index. -/
def createNodes (states : List DiagramState) : List DiagramNode :=
  createNodesAux 0 states

/-- The edge built for one transition at one list index, following the body
of `createEdges` (`StateDiagram.tsx` lines 77-103): the edge id is
`transition.id || e<index>`. -/
def mkEdge (index : Nat) (t : DiagramTransition) : DiagramEdge :=
  { id := jsStringOr t.id ("e" ++ toString index)
    source := t.from_state_id
    target := t.to_state_id
    label := t.name }

/-- The indexed traversal of `transitions.map((transition, index) => ...)`:
each transition yields `null` when its endpoints coincide or either is
empty, and an edge otherwise. -/
def createEdgesAux : Nat → List DiagramTransition → List (Option DiagramEdge)
  | _, [] => []
  | i, t :: ts =>
    (let fromId := t.from_state_id
     let toId := t.to_state_id
     if fromId = toId || fromId = "" || toId = "" then none
     else some (mkEdge i t)) :: createEdgesAux (i + 1) ts

/-- Embeds `createEdges` (`StateDiagram.tsx` lines 77-103): the indexed
traversal followed by `.filter(Boolean)`, which drops the nulls. -/
def createEdges (transitions : List DiagramTransition) : List DiagramEdge :=
  (createEdgesAux 0 transitions).reduceOption

/-! ### JSON data fields of the instance forms

Both the new-instance form (`src/frontend/app/workflow-instances/new/page.tsx`)
and the transition dialog (`src/frontend/app/workflow-instances/[id]/page.tsx`)
validate their free-text `data` field with the same yup test and parse it the
same way on submit.  `JSON.parse` is a host primitive; it is abstracted as a
function `parse : String → Option J` into an arbitrary type of parsed JSON
values, `none` standing for a thrown `SyntaxError`. -/

/-- Embeds the yup test `is-valid-json` shared by both forms
(`new/page.tsx` lines 31-39, `[id]/page.tsx` lines 57-65): an empty text is
accepted outright (`if (!value) return true`), otherwise the text is accepted
iff `JSON.parse` succeeds on it. -/
def isValidJsonText {J : Type} (parse : String → Option J) (value : String) : Bool :=
  if value = "" then true
  else (parse value).isSome

/-- The validation outcome of the `data` field: `none` when the field is
accepted, otherwise the fixed yup message of the `is-valid-json` test. -/
def dataFieldError {J : Type} (parse : String → Option J) (value : String) :
    Option String :=
  if isValidJsonText parse value then none else some "Invalid JSON format"

/-- The payload computed by both submit handlers from the data text
(`new/page.tsx` line 81, `[id]/page.tsx` line 122):
`data.data ? JSON.parse(data.data) : global object literal`. -/
def parsedSubmitData {J : Type} (parse : String → Option J) (emptyObj : J)
    (text : String) : Option J :=
  if text = "" then some emptyObj else parse text

/-- The request body sent by `transitionWorkflowInstance.mutateAsync`. -/
structure TransitionRequest (J : Type) where
  transition_id : String
  data : J

/-- The request body sent by `createWorkflowInstance.mutateAsync`. -/
structure CreateInstanceRequest (J : Type) where
  workflow_definition_id : String
  data : J

/-- Embeds the submit path of the transition dialog: react-hook-form runs
the resolver first, so `handleTransitionSubmit` (`[id]/page.tsx`
lines 120-127) executes — and a request is issued — only when the schema
accepted the form; the request carries the parsed data. -/
def submitTransitionForm {J : Type} (parse : String → Option J) (emptyObj : J)
    (transition_id text : String) : Option (TransitionRequest J) :=
  if isValidJsonText parse text then
    match parsedSubmitData parse emptyObj text with
    | some j => some { transition_id := transition_id, data := j }
    | none => none
  else none

/-- Embeds the submit path of the new-instance form: `handleFormSubmit`
(`new/page.tsx` lines 79-86) executes — and a request is issued — only when
the resolver accepted the form; the request carries the parsed data. -/
def submitNewInstanceForm {J : Type} (parse : String → Option J) (emptyObj : J)
    (workflow_definition_id text : String) : Option (CreateInstanceRequest J) :=
  if isValidJsonText parse text then
    match parsedSubmitData parse emptyObj text with
    | some j => some { workflow_definition_id := workflow_definition_id, data := j }
    | none => none
  else none

end Frontend

/-! ### Structured document form of definitions and instances

The persistence serializer itself is backend code absent from the tree; the
shape of the serialized document, however, is fixed by the TypeScript
interfaces of `src/frontend/app/api/apiService.ts`, which describe exactly
the JSON exchanged over the API (`Content-Type: application/json`).  The
functions below model that document form: field names are the interface
field names, an absent optional field is an omitted key (as `JSON.stringify`
omits `undefined`), and decoding expects each field at its interface type. -/

namespace Doc

/-- Key lookup in a document (first binding wins, as in a JSON object). -/
def get (doc : List (String × DVal)) (key : String) : Option DVal :=
  match doc with
  | [] => none
  | (k, v) :: rest => if k = key then some v else get rest key

/-- Expect a string value. -/
def asStr : Option DVal → Option String
  | some (.str s) => some s
  | _ => none

/-- Expect a boolean value. -/
def asBool : Option DVal → Option Bool
  | some (.boolean b) => some b
  | _ => none

/-- Expect an object value. -/
def asObj : Option DVal → Option (List (String × DVal))
  | some (.obj kvs) => some kvs
  | _ => none

/-- Expect an array value. -/
def asArr : Option DVal → Option (List DVal)
  | some (.arr vs) => some vs
  | _ => none

/-- Decode every element of a list, failing if any element fails. -/
def mapOption {α β : Type} (f : α → Option β) : List α → Option (List β)
  | [] => some []
  | a :: as =>
    match f a, mapOption f as with
    | some b, some bs => some (b :: bs)
    | _, _ => none

/-- Expect a string array value. -/
def asStrList (v : DVal) : Option String :=
  match v with
  | .str s => some s
  | _ => none

end Doc

namespace Frontend

open Doc

/-- Document form of a `WorkflowState` (field names from `apiService.ts`
lines 15-21). -/
def stateToDoc (s : WorkflowState) : List (String × DVal) :=
  [("id", .str s.id), ("name", .str s.name),
   ("description", .str s.description),
   ("is_initial", .boolean s.is_initial), ("is_final", .boolean s.is_final)]

/-- Decode a `WorkflowState` from its document form. -/
def stateFromDoc (doc : List (String × DVal)) : Option WorkflowState :=
  match asStr (get doc "id"), asStr (get doc "name"),
        asStr (get doc "description"),
        asBool (get doc "is_initial"), asBool (get doc "is_final") with
  | some i, some n, some d, some ini, some fin =>
      some { id := i, name := n, description := d,
             is_initial := ini, is_final := fin }
  | _, _, _, _, _ => none

/-- Document form of a `WorkflowTransition` (field names from
`apiService.ts` lines 23-30); the optional `conditions` key is omitted when
absent, as `JSON.stringify` omits `undefined` fields. -/
def transitionToDoc (t : WorkflowTransition) : List (String × DVal) :=
  [("id", .str t.id), ("name", .str t.name),
   ("description", .str t.description),
   ("from_state_id", .str t.from_state_id),
   ("to_state_id", .str t.to_state_id)] ++
  (match t.conditions with
   | none => []
   | some cs => [("conditions", .arr (cs.map .str))])

/-- Decode a `WorkflowTransition` from its document form. -/
def transitionFromDoc (doc : List (String × DVal)) : Option WorkflowTransition :=
  match asStr (get doc "id"), asStr (get doc "name"),
        asStr (get doc "description"),
        asStr (get doc "from_state_id"), asStr (get doc "to_state_id") with
  | some i, some n, some d, some f, some to_ =>
      match get doc "conditions" with
      | none =>
          some { id := i, name := n, description := d, from_state_id := f,
                 to_state_id := to_, conditions := none }
      | some v =>
          match v with
          | .arr vs =>
              match mapOption asStrList vs with
              | some cs =>
                  some { id := i, name := n, description := d,
                         from_state_id := f, to_state_id := to_,
                         conditions := some cs }
              | none => none
          | _ => none
  | _, _, _, _, _ => none

/-- Document form of an `InstanceStatus`: its interface string. -/
def statusFromString (s : String) : Option InstanceStatus :=
  if s = "active" then some .active
  else if s = "completed" then some .completed
  else if s = "terminated" then some .terminated
  else none

/-- Document form of a `WorkflowInstance` (field names from `apiService.ts`
lines 32-40): in particular the owning definition is keyed
`workflow_definition_id` and the context mapping is keyed `data`. -/
def instanceToDoc (i : WorkflowInstance) : List (String × DVal) :=
  [("id", .str i.id),
   ("workflow_definition_id", .str i.workflow_definition_id),
   ("current_state_id", .str i.current_state_id),
   ("data", .obj i.data),
   ("status", .str i.status.toString),
   ("created_at", .str i.created_at), ("updated_at", .str i.updated_at)]

/-- Decode a `WorkflowInstance` from its document form. -/
def instanceFromDoc (doc : List (String × DVal)) : Option WorkflowInstance :=
  match asStr (get doc "id"), asStr (get doc "workflow_definition_id"),
        asStr (get doc "current_state_id"), asObj (get doc "data"),
        asStr (get doc "status"),
        asStr (get doc "created_at"), asStr (get doc "updated_at") with
  | some i, some w, some c, some dt, some st, some ca, some ua =>
      match statusFromString st with
      | some s =>
          some { id := i, workflow_definition_id := w, current_state_id := c,
                 data := dt, status := s, created_at := ca, updated_at := ua }
      | none => none
  | _, _, _, _, _, _, _ => none

/-- Document form of a `WorkflowDefinition` (field names from
`apiService.ts` lines 4-13). -/
def definitionToDoc (d : WorkflowDefinition) : List (String × DVal) :=
  [("id", .str d.id), ("name", .str d.name),
   ("description", .str d.description), ("version", .str d.version),
   ("states", .arr (d.states.map (fun s => .obj (stateToDoc s)))),
   ("transitions", .arr (d.transitions.map (fun t => .obj (transitionToDoc t)))),
   ("created_at", .str d.created_at), ("updated_at", .str d.updated_at)]

/-- Decode one array element as an embedded object using a decoder. -/
def elemFromDoc {α : Type} (f : List (String × DVal) → Option α) (v : DVal) :
    Option α :=
  match v with
  | .obj kvs => f kvs
  | _ => none

/-- Decode a `WorkflowDefinition` from its document form. -/
def definitionFromDoc (doc : List (String × DVal)) : Option WorkflowDefinition :=
  match asStr (get doc "id"), asStr (get doc "name"),
        asStr (get doc "description"), asStr (get doc "version"),
        asArr (get doc "states"), asArr (get doc "transitions"),
        asStr (get doc "created_at"), asStr (get doc "updated_at") with
  | some i, some n, some de, some v, some sts, some trs, some ca, some ua =>
      match mapOption (elemFromDoc stateFromDoc) sts,
            mapOption (elemFromDoc transitionFromDoc) trs with
      | some states, some transitions =>
          some { id := i, name := n, description := de, version := v,
                 states := states, transitions := transitions,
                 created_at := ca, updated_at := ua }
      | _, _ => none
  | _, _, _, _, _, _, _, _ => none

end Frontend

/-! ## The workflow/rule engine core

The backend core (rule engine, workflow engine, definition validation) is
described by the repository's documentation (`src/unnamed/part_003`,
`src/unnamed/part_004`, `src/codebase_analysis.md`) but its source is not in
the tree.  Everything in this namespace is modelled from the specification,
as the doc comments state. -/

namespace Core

/-- Modelled from the spec: the `kind ∈ {start, normal, end}` tag of a core
State (§3); the missing backend `StateType`.  The spec's `end` kind is named
`final` because `end` is a Lean keyword. -/
inductive StateKind where
  | start
  | normal
  | final
deriving DecidableEq, Repr

/-- Modelled from the spec: a core State (§3), from the missing backend
workflow module. -/
structure State where
  id : String
  name : String
  kind : StateKind
deriving DecidableEq, Repr

/-- Modelled from the spec: a core Transition (§3), from the missing backend
workflow module; an absent `rule_id` makes the transition unconditional. -/
structure Transition where
  id : String
  source_state_id : String
  target_state_id : String
  rule_id : Option String
deriving DecidableEq, Repr

/-- Modelled from the spec: a core WorkflowDefinition (§3), from the missing
backend workflow module. -/
structure WorkflowDefinition where
  id : String
  name : String
  version : String
  states : List State
  transitions : List Transition
deriving DecidableEq, Repr

/-- Modelled from the spec: the error taxonomy of §7. -/
inductive EngineError where
  | DuplicateRuleId
  | UnknownRule
  | EvaluationError
  | InvalidDefinition
  | UnknownDefinition
  | InvalidTransition
  | MaxHopsExceeded
deriving DecidableEq, Repr

/-! ### Conditions and their evaluation (§3, §4.1) -/

/-- Modelled from the spec: the list operations of a `ListOp` condition
(§3). -/
inductive ListOperation where
  | contains_all
  | contains_any
  | equals
  | is_subset
  | is_superset
deriving DecidableEq, Repr

/-- Modelled from the spec: the comparison operators of a `Comparison`
condition (§3). -/
inductive CompareOp where
  | eq
  | ne
  | lt
  | le
  | gt
  | ge
deriving DecidableEq, Repr

/-- Modelled from the spec: the compound connectives of §3. -/
inductive CompoundOp where
  | and
  | or
  | not
deriving DecidableEq, Repr

/-- Modelled from the spec: the polymorphic Condition sum type of §3, from
the missing backend rule-engine module. -/
inductive Condition where
  | comparison : String → CompareOp → DVal → Condition
  | listOp : String → ListOperation → List DVal → Condition
  | compound : CompoundOp → List Condition → Condition

mutual

/-- Structural equality of document values, used as the element-equality of
the list operations. -/
def DVal.beq : DVal → DVal → Bool
  | .str a, .str b => a == b
  | .boolean a, .boolean b => a == b
  | .num a, .num b => a == b
  | .arr as, .arr bs => DVal.beqList as bs
  | .obj as, .obj bs => DVal.beqObj as bs
  | _, _ => false

/-- Elementwise `DVal.beq` on arrays. -/
def DVal.beqList : List DVal → List DVal → Bool
  | [], [] => true
  | a :: as, b :: bs => DVal.beq a b && DVal.beqList as bs
  | _, _ => false

/-- Keywise `DVal.beq` on objects. -/
def DVal.beqObj : List (String × DVal) → List (String × DVal) → Bool
  | [], [] => true
  | (k, a) :: as, (l, b) :: bs => k == l && DVal.beq a b && DVal.beqObj as bs
  | _, _ => false

end

/-- Membership of a value in a list value, up to `DVal.beq`. -/
def dvalMem (v : DVal) (l : List DVal) : Bool :=
  l.any (DVal.beq v)

/-- Modelled from the spec: the ListOp semantics of §4.1, applied to the
field's list value and the operand, from the missing
`list_condition` module.  `equals` is set equality, `is_subset` holds when
the field's element set is contained in the operand's, `is_superset` when
the operand's is contained in the field's. -/
def evalListOp (op : ListOperation) (field operand : List DVal) : Bool :=
  match op with
  | .contains_all => operand.all (fun x => dvalMem x field)
  | .contains_any => operand.any (fun x => dvalMem x field)
  | .equals =>
      field.all (fun x => dvalMem x operand) &&
      operand.all (fun x => dvalMem x field)
  | .is_subset => field.all (fun x => dvalMem x operand)
  | .is_superset => operand.all (fun x => dvalMem x field)

/-- Character-level splitting of a path on the dot separator. -/
def splitPathAux : List Char → List Char → List String
  | [], acc => [String.mk acc.reverse]
  | c :: cs, acc =>
    if c = '.' then String.mk acc.reverse :: splitPathAux cs []
    else splitPathAux cs (c :: acc)

/-- A dot-separated field path, split into segments (§3). -/
def splitPath (p : String) : List String :=
  splitPathAux p.data []

/-- Modelled from the spec: nested field addressing in the context mapping
(§3); a missing segment yields `none`. -/
def lookupPath (ctx : List (String × DVal)) : List String → Option DVal
  | [] => none
  | [k] => Doc.get ctx k
  | k :: rest =>
    match Doc.get ctx k with
    | some (.obj kvs) => lookupPath kvs rest
    | _ => none

/-- Modelled from the spec: numeric/equality comparison of a field value
with the operand; `eq`/`ne` are structural, the order comparisons require
numbers and otherwise fail as a malformed-operand authoring bug (§4.1). -/
def evalCompare (op : CompareOp) (v w : DVal) : Except EngineError Bool :=
  match op with
  | .eq => .ok (DVal.beq v w)
  | .ne => .ok (!DVal.beq v w)
  | _ =>
    match v, w with
    | .num a, .num b =>
      match op with
      | .lt => .ok (decide (a < b))
      | .le => .ok (decide (a ≤ b))
      | .gt => .ok (decide (b < a))
      | .ge => .ok (decide (b ≤ a))
      | _ => .error .EvaluationError
    | _, _ => .error .EvaluationError

mutual

/-- Modelled from the spec: the exhaustive Condition evaluator of §3/§4.1,
from the missing backend rule-engine module.  A missing field path fails
closed (`false`); a non-list field value under a `ListOp` fails with
`EvaluationError` rather than silently coercing; compound conditions
combine their children, a `not` with other than exactly one child being an
authoring bug. -/
def evalCondition (ctx : List (String × DVal)) : Condition → Except EngineError Bool
  | .comparison path op operand =>
    match lookupPath ctx (splitPath path) with
    | none => .ok false
    | some v => evalCompare op v operand
  | .listOp path op operand =>
    match lookupPath ctx (splitPath path) with
    | none => .ok false
    | some (.arr field) => .ok (evalListOp op field operand)
    | some _ => .error .EvaluationError
  | .compound .and children => evalAll ctx children
  | .compound .or children => evalAny ctx children
  | .compound .not children =>
    match children with
    | [c] =>
      match evalCondition ctx c with
      | .ok b => .ok (!b)
      | .error e => .error e
    | _ => .error .EvaluationError

/-- Conjunction over children, propagating evaluation errors. -/
def evalAll (ctx : List (String × DVal)) : List Condition → Except EngineError Bool
  | [] => .ok true
  | c :: cs =>
    match evalCondition ctx c with
    | .error e => .error e
    | .ok false => .ok false
    | .ok true => evalAll ctx cs

/-- Disjunction over children, propagating evaluation errors. -/
def evalAny (ctx : List (String × DVal)) : List Condition → Except EngineError Bool
  | [] => .ok false
  | c :: cs =>
    match evalCondition ctx c with
    | .error e => .error e
    | .ok true => .ok true
    | .ok false => evalAny ctx cs

end

/-- Modelled from the spec: a Rule of the missing rule-engine registry
(§3). -/
structure Rule where
  id : String
  condition : Condition
  priority : Int
  description : String

/-- Modelled from the spec: `RuleEngine.evaluate` (§4.1) against a list of
registered rules; an unregistered id fails with `UnknownRule`. -/
def evaluateRule (rules : List Rule) (rid : String)
    (ctx : List (String × DVal)) : Except EngineError Bool :=
  match rules.find? (fun r => r.id = rid) with
  | none => .error .UnknownRule
  | some r => evalCondition ctx r.condition

/-! ### Definition validation (§4.2) -/

/-- Severity tag of a validation finding (§4.2). -/
inductive Severity where
  | error
  | warning
deriving DecidableEq, Repr

/-- A validation finding (§4.2). -/
structure Finding where
  severity : Severity
  message : String
deriving DecidableEq, Repr

/-- Whether a list of strings contains a duplicate. -/
def hasDup : List String → Bool
  | [] => false
  | x :: xs => xs.contains x || hasDup xs

/-- The ids of a definition's states. -/
def stateIds (d : WorkflowDefinition) : List String :=
  d.states.map (fun s => s.id)

/-- The ids of the definition's `start` states. -/
def startStateIds (d : WorkflowDefinition) : List String :=
  (d.states.filter (fun s => s.kind = .start)).map (fun s => s.id)

/-- One traversal round: states newly reachable through one transition from
the visited set. -/
def reachStep (d : WorkflowDefinition) (visited : List String) : List String :=
  ((d.transitions.filter (fun t => visited.contains t.source_state_id)).map
    (fun t => t.target_state_id)).filter (fun s => !visited.contains s)

/-- Fuelled fixpoint of the reachability traversal. -/
def reachAux (d : WorkflowDefinition) : Nat → List String → List String
  | 0, visited => visited
  | n + 1, visited =>
    match reachStep d visited with
    | [] => visited
    | fresh => reachAux d n (visited ++ fresh.eraseDups)

/-- Modelled from the spec: the structural reachability traversal of §4.2,
from the start states over transitions as directed edges, guards ignored. -/
def reachableIds (d : WorkflowDefinition) : List String :=
  reachAux d d.states.length (startStateIds d).eraseDups

/-- Modelled from the spec: `validate(definition)` of §4.2, from the missing
backend workflow module.  In order: uniqueness of State and Transition ids,
the exactly-one-start-state check, referential integrity of every
Transition's endpoints (all `error`), then the unreachable-state,
self-transition and duplicate-edge findings (all `warning`). -/
def validate (d : WorkflowDefinition) : List Finding :=
  (if hasDup (stateIds d) then
    [{ severity := .error, message := "duplicate state id" }] else []) ++
  (if hasDup (d.transitions.map (fun t => t.id)) then
    [{ severity := .error, message := "duplicate transition id" }] else []) ++
  (if (d.states.filter (fun s => s.kind = .start)).length = 1 then []
   else [{ severity := .error, message := "definition must have exactly one start state" }]) ++
  (d.transitions.filterMap (fun t =>
    if (stateIds d).contains t.source_state_id &&
       (stateIds d).contains t.target_state_id then none
    else some { severity := .error,
                message := "transition references nonexistent state" })) ++
  (d.states.filterMap (fun s =>
    if (reachableIds d).contains s.id then none
    else some { severity := .warning, message := "unreachable state" })) ++
  (d.transitions.filterMap (fun t =>
    if t.source_state_id = t.target_state_id then
      some { severity := .warning, message := "self-transition" }
    else none)) ++
  (if hasDup (d.transitions.map
      (fun t => t.source_state_id ++ "->" ++ t.target_state_id)) then
    [{ severity := .warning, message := "duplicate edge" }] else [])

/-- Whether a finding list contains an `error`-severity finding. -/
def hasError (findings : List Finding) : Bool :=
  findings.any (fun f => f.severity = .error)

/-- Modelled from the spec: `WorkflowEngine.register_definition` (§6):
a definition with any `error` finding fails with `InvalidDefinition` and is
never registered; otherwise the validated definition enters the registry. -/
def register_definition (d : WorkflowDefinition) :
    Except EngineError WorkflowDefinition :=
  if hasError (validate d) then .error .InvalidDefinition else .ok d

/-! ### Instances and execution (§3, §4.3, §5) -/

/-- Modelled from the spec: the four-valued instance status of §3. -/
inductive Status where
  | active
  | completed
  | terminated
  | failed
deriving DecidableEq, Repr

/-- Modelled from the spec: a HistoryEntry (§3); `from_state_id` and
`transition_id` are null exactly for the entry written at creation. -/
structure HistoryEntry where
  from_state_id : Option String
  to_state_id : String
  transition_id : Option String
  timestamp : Nat
  context_snapshot : List (String × DVal)

/-- Modelled from the spec: a WorkflowInstance of the core (§3). -/
structure Instance where
  id : String
  definition_id : String
  current_state_id : String
  context : List (String × DVal)
  status : Status
  history : List HistoryEntry

/-- The definition's first `start` state, the one an instance is created
at. -/
def startState (d : WorkflowDefinition) : Option State :=
  d.states.find? (fun s => s.kind = .start)

/-- Modelled from the spec: `create_instance` (§4.3): an instance begins
`active` at the start state with one initial history entry whose
`from_state_id` and `transition_id` are null. -/
def create_instance (d : WorkflowDefinition) (iid : String)
    (ctx : List (String × DVal)) (ts : Nat) : Option Instance :=
  match startState d with
  | none => none
  | some s0 =>
      some { id := iid, definition_id := d.id, current_state_id := s0.id,
             context := ctx, status := .active,
             history := [{ from_state_id := none, to_state_id := s0.id,
                           transition_id := none, timestamp := ts,
                           context_snapshot := ctx }] }

/-- Modelled from the spec: committing one transition (§4.3 step 3): the
current state moves to the target, the context becomes the given one, and
exactly one history entry with non-null `from_state_id` and `transition_id`
is appended; nothing already in the history is touched. -/
def commitTransition (inst : Instance) (t : Transition)
    (newCtx : List (String × DVal)) (ts : Nat) : Instance :=
  { inst with
      current_state_id := t.target_state_id
      context := newCtx
      history := inst.history ++
        [{ from_state_id := some inst.current_state_id,
           to_state_id := t.target_state_id,
           transition_id := some t.id, timestamp := ts,
           context_snapshot := newCtx }] }

/-- The current state's outgoing transitions, in definition order (§4.3
step 1). -/
def outgoingTransitions (d : WorkflowDefinition) (cur : String) :
    List Transition :=
  d.transitions.filter (fun t => t.source_state_id = cur)

/-- Whether a transition matches: unconditional, or its guard rule evaluates
true (§4.3 step 2). -/
def transitionMatches (rules : List Rule) (ctx : List (String × DVal))
    (t : Transition) : Except EngineError Bool :=
  match t.rule_id with
  | none => .ok true
  | some rid => evaluateRule rules rid ctx

/-- The first matching transition of a list, in order, propagating guard
evaluation errors. -/
def firstMatchAux (rules : List Rule) (ctx : List (String × DVal)) :
    List Transition → Except EngineError (Option Transition)
  | [] => .ok none
  | t :: ts =>
    match transitionMatches rules ctx t with
    | .error e => .error e
    | .ok true => .ok (some t)
    | .ok false => firstMatchAux rules ctx ts

/-- The first matching outgoing transition of the instance's current state
(§4.3 steps 1-2). -/
def firstMatch (rules : List Rule) (d : WorkflowDefinition) (inst : Instance) :
    Except EngineError (Option Transition) :=
  firstMatchAux rules inst.context (outgoingTransitions d inst.current_state_id)

/-- Whether a state id names an `end` state of the definition. -/
def isEndState (d : WorkflowDefinition) (sid : String) : Bool :=
  match d.states.find? (fun s => s.id = sid) with
  | some s => s.kind = .final
  | none => false

/-- Outcome of `run_instance`: the instance after a normal stop, the
instance left at its last committed state when the hop budget is exceeded
(`MaxHopsExceeded`, §5), or the failed instance with the unrecoverable
error (§7). -/
inductive RunResult where
  | ok : Instance → RunResult
  | maxHopsExceeded : Instance → RunResult
  | failed : EngineError → Instance → RunResult

/-- The instance carried by a run outcome. -/
def RunResult.inst : RunResult → Instance
  | .ok i => i
  | .maxHopsExceeded i => i
  | .failed _ i => i

/-- Whether the run outcome is the `MaxHopsExceeded` failure. -/
def RunResult.isMaxHops : RunResult → Bool
  | .maxHopsExceeded _ => true
  | _ => false

/-- Modelled from the spec: the auto-advance loop of `run_instance`
(§4.3, §5).  Each round takes the first matching outgoing transition; a
match with no budget left fails with `MaxHopsExceeded`, leaving the instance
at its last committed state; committing onto an `end` state completes the
instance; no match stops with the instance still `active`; a guard
evaluation error fails the instance (§7). -/
def runLoop (rules : List Rule) (d : WorkflowDefinition) (inst : Instance)
    (budget : Nat) (ts : Nat) : RunResult :=
  match firstMatch rules d inst with
  | .error e => .failed e { inst with status := .failed }
  | .ok none => .ok inst
  | .ok (some t) =>
    match budget with
    | 0 => .maxHopsExceeded inst
    | b + 1 =>
      let inst2 := commitTransition inst t inst.context (ts + 1)
      if isEndState d inst2.current_state_id then
        .ok { inst2 with status := .completed }
      else
        runLoop rules d inst2 b (ts + 1)

/-- Modelled from the spec: `run_instance(instance_id, max_hops)` (§6) with
the caller-supplied iteration budget of §5. -/
def run_instance (rules : List Rule) (d : WorkflowDefinition)
    (inst : Instance) (max_hops : Nat) (ts : Nat) : RunResult :=
  runLoop rules d inst max_hops ts

/-- Shallow merge of a data patch into the context: patched keys replace
existing bindings, other bindings are kept. -/
def mergeContext (ctx patch : List (String × DVal)) :
    List (String × DVal) :=
  (ctx.filter (fun kv => !(patch.any (fun pv => pv.1 = kv.1)))) ++ patch

/-- Modelled from the spec: `transition_instance(instance_id, transition_id,
data_patch)` (§4.3): it fails with `InvalidTransition` when `transition_id`
does not originate from the instance's current state or when its guard
evaluates false on the patched context; on success it merges the patch,
commits the single transition, and auto-advances no further. -/
def transition_instance (rules : List Rule) (d : WorkflowDefinition)
    (inst : Instance) (tid : String) (patch : List (String × DVal))
    (ts : Nat) : Except EngineError Instance :=
  match d.transitions.find?
      (fun t => t.id = tid && t.source_state_id = inst.current_state_id) with
  | none => .error .InvalidTransition
  | some t =>
    let merged := mergeContext inst.context patch
    match transitionMatches rules merged t with
    | .error e => .error e
    | .ok false => .error .InvalidTransition
    | .ok true =>
      let inst2 := commitTransition { inst with context := merged } t merged ts
      .ok (if isEndState d inst2.current_state_id then
             { inst2 with status := .completed }
           else inst2)

/-- The commits that can happen to an instance: it is created by
`create_instance`, and thereafter only the engine's transition operation
appends to it (§3).  This relation closes over every committed transition,
whatever operation requested it. -/
inductive ReachableInstance (d : WorkflowDefinition) : Instance → Prop where
  | created : ∀ iid ctx ts inst,
      create_instance d iid ctx ts = some inst → ReachableInstance d inst
  | stepped : ∀ inst t ctx ts,
      ReachableInstance d inst →
      ReachableInstance d (commitTransition inst t ctx ts)

end Core

/-! ## Concrete example values

Inputs used by the closed theorems below. -/

/-- A frontend state flagged both initial and final, as the definition form
permits and the detail page renders. -/
def bothState : Frontend.WorkflowState :=
  { id := "s1", name := "Intake", description := "",
    is_initial := true, is_final := true }

/-- A frontend definition containing `bothState`. -/
def bothDefinition : Frontend.WorkflowDefinition :=
  { id := "wf1", name := "One-step", description := "", version := "1.0.0",
    states := [bothState], transitions := [],
    created_at := "2024-01-01", updated_at := "2024-01-01" }

/-- A context binding the field `x` to a number, not a list. -/
def scalarFieldContext : List (String × DVal) :=
  [("x", .num 5)]

/-- A context binding the field `tags` to a list value. -/
def listFieldContext : List (String × DVal) :=
  [("tags", .arr [.str "a"])]

/-- The amended node-identity rule of the diagram: a node is identified by
the state's id, or by its list index when the id is absent or empty. -/
def nodeIdSpec (s : Frontend.DiagramState) (i : Nat) : String :=
  match s.id with
  | none => toString i
  | some v => if v = "" then toString i else v

/-- The amended edge-qualification rule of the diagram: both endpoints
non-empty and different. -/
def edgeOkSpec (t : Frontend.DiagramTransition) : Bool :=
  if t.from_state_id = t.to_state_id ∨ t.from_state_id = "" ∨
     t.to_state_id = "" then false else true

/-- A one-state list whose state has the empty string as its id. -/
def emptyIdStates : List Frontend.DiagramState :=
  [{ id := some "", name := "A", is_initial := false, is_final := false }]

/-- A core definition with one state `X` and one unconditional
self-transition `X→X`. -/
def cycleDefinition : Core.WorkflowDefinition :=
  { id := "wf-cycle", name := "cycle", version := "1",
    states := [{ id := "X", name := "X", kind := .start }],
    transitions := [{ id := "loop", source_state_id := "X",
                      target_state_id := "X", rule_id := none }] }

/-- The instance created from `cycleDefinition` at `X`. -/
def cycleInstance : Core.Instance :=
  { id := "i8", definition_id := "wf-cycle", current_state_id := "X",
    context := [], status := .active,
    history := [{ from_state_id := none, to_state_id := "X",
                  transition_id := none, timestamp := 0,
                  context_snapshot := [] }] }

/-- The history entry committed by the `k`-th hop around the cycle. -/
def cycleEntry (k : Nat) : Core.HistoryEntry :=
  { from_state_id := some "X", to_state_id := "X",
    transition_id := some "loop", timestamp := k, context_snapshot := [] }

/-- The instance left behind when the five-hop budget is exhausted. -/
def cycleFinal : Core.Instance :=
  { id := "i8", definition_id := "wf-cycle", current_state_id := "X",
    context := [], status := .active,
    history := [{ from_state_id := none, to_state_id := "X",
                  transition_id := none, timestamp := 0,
                  context_snapshot := [] },
                cycleEntry 1, cycleEntry 2, cycleEntry 3, cycleEntry 4,
                cycleEntry 5] }

/-- The amended edge production rule, written from the amended claim's
words: walking the transitions in order with their indices, each qualifying
transition yields exactly its one edge and every other transition yields
nothing. -/
def edgesSpec : Nat → List Frontend.DiagramTransition → List Frontend.DiagramEdge
  | _, [] => []
  | i, t :: ts =>
    if edgeOkSpec t then Frontend.mkEdge i t :: edgesSpec (i + 1) ts
    else edgesSpec (i + 1) ts

/-- A concrete frontend transition, serialized in `C3`'s counterexample. -/
def c3Transition : Frontend.WorkflowTransition :=
  { id := "t1", name := "go", description := "", from_state_id := "a",
    to_state_id := "b", conditions := none }

/-- A concrete frontend instance, serialized in `C3`'s counterexample. -/
def c3Instance : Frontend.WorkflowInstance :=
  { id := "i1", workflow_definition_id := "w1", current_state_id := "a",
    data := [], status := .active, created_at := "2024-01-01",
    updated_at := "2024-01-02" }

/-- A core definition with no `start` state, rejected by validation. -/
def c4Definition : Core.WorkflowDefinition :=
  { id := "bad", name := "bad", version := "1",
    states := [{ id := "A", name := "A", kind := .normal }],
    transitions := [] }

/-- The instance created from `c2Definition` at its start state `A`. -/
def c6Instance : Core.Instance :=
  { id := "i6", definition_id := "wf2", current_state_id := "A",
    context := [], status := .active,
    history := [{ from_state_id := none, to_state_id := "A",
                  transition_id := none, timestamp := 0,
                  context_snapshot := [] }] }

/-- A core definition whose single transition leaves state `A`. -/
def c2Definition : Core.WorkflowDefinition :=
  { id := "wf2", name := "two-step", version := "1",
    states := [{ id := "A", name := "A", kind := .start },
               { id := "B", name := "B", kind := .final }],
    transitions := [{ id := "t1", source_state_id := "A",
                      target_state_id := "B", rule_id := none }] }

/-- A core instance of `c2Definition` standing at state `B`. -/
def c2Instance : Core.Instance :=
  { id := "i2", definition_id := "wf2", current_state_id := "B",
    context := [], status := .active,
    history := [{ from_state_id := none, to_state_id := "A",
                  transition_id := none, timestamp := 0,
                  context_snapshot := [] },
                { from_state_id := some "A", to_state_id := "B",
                  transition_id := some "t1", timestamp := 1,
                  context_snapshot := [] }] }

end PACheck

/-! ## Theorems -/

namespace PACheck

/-- C1: corrected form.  The status of a `WorkflowInstance` on the public
interface is drawn from the three values `active`, `completed`,
`terminated`; there is no fourth `failed` member of the union type.  The
instance-list consumer `getStatusColor` maps each of the three to its own
non-default chip color, any other string (including a hypothetical
`failed`) falling through to the default branch, and the detail-page chip
likewise colors each of the three. -/
theorem C1_instance_status_values :
    (∀ s : Frontend.InstanceStatus,
       s = .active ∨ s = .completed ∨ s = .terminated) ∧
    Frontend.getStatusColor "active" = "primary" ∧
    Frontend.getStatusColor "completed" = "success" ∧
    Frontend.getStatusColor "terminated" = "error" ∧
    Frontend.getStatusColor "failed" = "default" ∧
    (∀ s : Frontend.InstanceStatus,
       Frontend.getStatusColor s.toString ≠ "default") ∧
    (∀ s : Frontend.InstanceStatus,
       Frontend.detailStatusColor s = "primary" ∨
       Frontend.detailStatusColor s = "success" ∨
       Frontend.detailStatusColor s = "error") := by
  refine ⟨fun s => ?_, rfl, rfl, rfl, rfl, fun s => ?_, fun s => ?_⟩ <;>
    cases s <;> simp [Frontend.getStatusColor, Frontend.detailStatusColor,
      Frontend.InstanceStatus.toString]

/-- C1: counterexample to the claim as stated.  No value of the instance
status union renders as `failed`: the type of
`WorkflowInstance.status` in `apiService.ts` has exactly the three members
`active`, `completed`, `terminated`. -/
theorem C1_no_failed_status :
    ¬ ∃ s : Frontend.InstanceStatus,
        Frontend.InstanceStatus.toString s = "failed" := by
  rintro ⟨s, hs⟩
  cases s <;> simp [Frontend.InstanceStatus.toString] at hs

/-- C5: corrected form.  A frontend `WorkflowState` carries two independent
boolean flags `is_initial` and `is_final`; the definition detail page
classifies every state into exactly one of the four labels `Initial &
Final`, `Initial`, `Final`, `Normal`, determined by the two flags. -/
theorem C5_state_kind_labels (s : Frontend.WorkflowState) :
    (Frontend.stateKindLabel s = "Initial & Final" ↔
       s.is_initial = true ∧ s.is_final = true) ∧
    (Frontend.stateKindLabel s = "Initial" ↔
       s.is_initial = true ∧ s.is_final = false) ∧
    (Frontend.stateKindLabel s = "Final" ↔
       s.is_initial = false ∧ s.is_final = true) ∧
    (Frontend.stateKindLabel s = "Normal" ↔
       s.is_initial = false ∧ s.is_final = false) := by
  rcases s with ⟨i, n, de, ini, fin⟩
  cases ini <;> cases fin <;> simp [Frontend.stateKindLabel]

/-- C5: counterexample to the claim as stated.  The data model admits a
state that is simultaneously initial and final — a definition containing
one is well formed and the detail page renders it with the dedicated
`Initial & Final` chip — so no state has exactly one kind among
start/normal/end. -/
theorem C5_both_initial_and_final :
    bothState ∈ bothDefinition.states ∧
    bothState.is_initial = true ∧ bothState.is_final = true ∧
    Frontend.stateKindLabel bothState = "Initial & Final" := by
  refine ⟨?_, rfl, rfl, rfl⟩
  simp [bothDefinition]

/-- C7: corrected form.  Whenever a `ListOp` condition's field path resolves
to a list value, `contains_all` with an empty operand evaluates to `true`
and `contains_any` with an empty operand evaluates to `false`, for every
context and every list field value. -/
theorem C7_empty_operand_semantics (ctx : List (String × DVal))
    (path : String) (field : List DVal)
    (h : Core.lookupPath ctx (Core.splitPath path) = some (.arr field)) :
    Core.evalCondition ctx (.listOp path .contains_all []) = .ok true ∧
    Core.evalCondition ctx (.listOp path .contains_any []) = .ok false := by
  constructor <;> simp [Core.evalCondition, h, Core.evalListOp]

/-- C7: witness for the corrected theorem at a concrete context whose
`tags` field holds a list. -/
theorem C7_empty_operand_witness :
    Core.lookupPath listFieldContext (Core.splitPath "tags") =
      some (.arr [.str "a"]) ∧
    (Core.evalCondition listFieldContext
        (.listOp "tags" .contains_all []) = .ok true ∧
     Core.evalCondition listFieldContext
        (.listOp "tags" .contains_any []) = .ok false) :=
  ⟨rfl, C7_empty_operand_semantics listFieldContext "tags" [.str "a"] rfl⟩

/-- C2: for a loaded definition and instance, the transitions offered by
the detail page are exactly the definition transitions whose
`from_state_id` is the instance's current state; and the core
`transition_instance` fails with `InvalidTransition` whenever no definition
transition with the requested id originates from the current state. -/
theorem C2_offered_transitions :
    (∀ (d : Frontend.WorkflowDefinition) (i : Frontend.WorkflowInstance)
       (t : Frontend.WorkflowTransition),
       t ∈ Frontend.getAvailableTransitions (some d) (some i) ↔
         t ∈ d.transitions ∧ t.from_state_id = i.current_state_id) ∧
    (∀ (rules : List Core.Rule) (d : Core.WorkflowDefinition)
       (inst : Core.Instance) (tid : String)
       (patch : List (String × DVal)) (ts : Nat),
       (∀ t ∈ d.transitions,
          t.id = tid → t.source_state_id ≠ inst.current_state_id) →
       Core.transition_instance rules d inst tid patch ts =
         .error .InvalidTransition) := by
  constructor
  · intro d i t
    simp [Frontend.getAvailableTransitions, List.mem_filter]
  · intro rules d inst tid patch ts h
    have hnone : d.transitions.find?
        (fun t => t.id = tid && t.source_state_id = inst.current_state_id) =
          none := by
      rw [List.find?_eq_none]
      intro t ht
      simp only [Bool.and_eq_true, decide_eq_true_eq, not_and]
      intro h1 h2
      exact h t ht h1 h2
    simp [Core.transition_instance, hnone]

/-- C2: witness for the `InvalidTransition` half at a concrete instance
standing at state `B` while the only definition transition leaves `A`. -/
theorem C2_offered_transitions_witness :
    (∀ t ∈ c2Definition.transitions,
       t.id = "t1" → t.source_state_id ≠ c2Instance.current_state_id) ∧
    Core.transition_instance [] c2Definition c2Instance "t1" [] 0 =
      .error .InvalidTransition :=
  ⟨by decide, C2_offered_transitions.2 [] c2Definition c2Instance "t1" [] 0
    (by decide)⟩

/-- C9: the instance-creation and instance-transition forms accept their
JSON text exactly when it is empty or parsing succeeds; the rejection
message is exactly `Invalid JSON format`; a request is issued exactly when
the text is accepted, and it carries the parse of the text — the empty
object when the text is empty — together with the selected transition or
definition id. -/
theorem C9_json_form_validation {J : Type} (parse : String → Option J)
    (emptyObj : J) (tid wid text : String) :
    (Frontend.dataFieldError parse text = none ↔
       text = "" ∨ (parse text).isSome = true) ∧
    (Frontend.dataFieldError parse text =
       if text = "" ∨ (parse text).isSome = true then none
       else some "Invalid JSON format") ∧
    ((Frontend.submitTransitionForm parse emptyObj tid text).isSome ↔
       text = "" ∨ (parse text).isSome = true) ∧
    ((Frontend.submitNewInstanceForm parse emptyObj wid text).isSome ↔
       text = "" ∨ (parse text).isSome = true) ∧
    ((Frontend.submitTransitionForm parse emptyObj tid text).map
        (fun r => r.data) =
       if text = "" ∨ (parse text).isSome = true then
         (if text = "" then some emptyObj else parse text) else none) ∧
    ((Frontend.submitNewInstanceForm parse emptyObj wid text).map
        (fun r => r.data) =
       if text = "" ∨ (parse text).isSome = true then
         (if text = "" then some emptyObj else parse text) else none) ∧
    ((Frontend.submitTransitionForm parse emptyObj tid text).map
        (fun r => r.transition_id) =
       if text = "" ∨ (parse text).isSome = true then some tid else none) ∧
    ((Frontend.submitNewInstanceForm parse emptyObj wid text).map
        (fun r => r.workflow_definition_id) =
       if text = "" ∨ (parse text).isSome = true then some wid else none) := by
  by_cases ht : text = ""
  · simp [Frontend.dataFieldError, Frontend.isValidJsonText,
      Frontend.submitTransitionForm, Frontend.submitNewInstanceForm,
      Frontend.parsedSubmitData, ht]
  · cases hp : parse text with
    | none =>
        simp [Frontend.dataFieldError, Frontend.isValidJsonText,
          Frontend.submitTransitionForm, Frontend.submitNewInstanceForm,
          Frontend.parsedSubmitData, ht, hp]
    | some j =>
        simp [Frontend.dataFieldError, Frontend.isValidJsonText,
          Frontend.submitTransitionForm, Frontend.submitNewInstanceForm,
          Frontend.parsedSubmitData, ht, hp]

/-- The nodes of the indexed traversal, read back positionally. -/
theorem createNodesAux_getElem (ss : List Frontend.DiagramState) :
    ∀ n i : Nat, (Frontend.createNodesAux n ss)[i]? =
      (ss[i]?).map (fun s => Frontend.mkNode (n + i) s) := by
  induction ss with
  | nil => intro n i; simp [Frontend.createNodesAux]
  | cons s ss ih =>
      intro n i
      cases i with
      | zero => simp [Frontend.createNodesAux]
      | succ j =>
          simp only [Frontend.createNodesAux, List.getElem?_cons_succ, ih,
            Nat.add_succ, Nat.succ_add]

/-- The indexed traversal has one node per state. -/
theorem createNodesAux_length (ss : List Frontend.DiagramState) :
    ∀ n : Nat, (Frontend.createNodesAux n ss).length = ss.length := by
  induction ss with
  | nil => intro n; rfl
  | cons s ss ih => intro n; simp [Frontend.createNodesAux, ih]

/-- The node id rule agrees with the amended claim's identification rule. -/
theorem mkNode_id (s : Frontend.DiagramState) (i : Nat) :
    (Frontend.mkNode i s).id = nodeIdSpec s i := by
  rcases s with ⟨sid, n, ini, fin⟩
  cases sid <;> simp [Frontend.mkNode, Frontend.jsStringOr, nodeIdSpec]

/-- The edge traversal produces exactly the edges of the amended rule. -/
theorem createEdgesAux_spec (ts : List Frontend.DiagramTransition) :
    ∀ n : Nat, (Frontend.createEdgesAux n ts).reduceOption = edgesSpec n ts := by
  induction ts with
  | nil => intro n; rfl
  | cons t ts ih =>
      intro n
      by_cases h : t.from_state_id = t.to_state_id ∨ t.from_state_id = "" ∨
        t.to_state_id = ""
      · have h1 : (decide (t.from_state_id = t.to_state_id) ||
            decide (t.from_state_id = "") || decide (t.to_state_id = "")) =
              true := by
          rcases h with h | h | h <;> simp [h]
        have h2 : edgeOkSpec t = false := by simp [edgeOkSpec, h]
        simp [Frontend.createEdgesAux, edgesSpec, h1, h2,
          List.reduceOption_cons_of_none, ih]
      · push_neg at h
        have h1 : (decide (t.from_state_id = t.to_state_id) ||
            decide (t.from_state_id = "") || decide (t.to_state_id = "")) =
              false := by
          simp [h.1, h.2.1, h.2.2]
        have h2 : edgeOkSpec t = true := by
          simp [edgeOkSpec, h.1, h.2.1, h.2.2]
        simp [Frontend.createEdgesAux, edgesSpec, h1, h2,
          List.reduceOption_cons_of_some, ih]

/-- The amended rule produces one edge per qualifying transition. -/
theorem edgesSpec_length (ts : List Frontend.DiagramTransition) :
    ∀ n : Nat, (edgesSpec n ts).length =
      (ts.filter edgeOkSpec).length := by
  induction ts with
  | nil => intro n; rfl
  | cons t ts ih =>
      intro n
      cases h : edgeOkSpec t <;> simp [edgesSpec, h, List.filter_cons, ih]

/-- C10: corrected form.  `StateDiagram` produces exactly one node per
state, identified by the state's id, or by its list index when the id is
absent or empty; and its edges are exactly one edge per transition whose
endpoints are non-empty and different, self-transitions and transitions
with a missing endpoint producing no edge. -/
theorem C10_state_diagram (states : List Frontend.DiagramState)
    (transitions : List Frontend.DiagramTransition) :
    (Frontend.createNodes states).length = states.length ∧
    (∀ i : Nat, ((Frontend.createNodes states)[i]?).map (fun nd => nd.id) =
       (states[i]?).map (fun s => nodeIdSpec s i)) ∧
    Frontend.createEdges transitions = edgesSpec 0 transitions ∧
    (Frontend.createEdges transitions).length =
      (transitions.filter edgeOkSpec).length := by
  refine ⟨createNodesAux_length states 0, fun i => ?_,
    createEdgesAux_spec transitions 0, ?_⟩
  · rw [Frontend.createNodes, createNodesAux_getElem states 0 i]
    cases states[i]? with
    | none => rfl
    | some s => simp [mkNode_id]
  · rw [Frontend.createEdges, createEdgesAux_spec transitions 0,
      edgesSpec_length transitions 0]

/-- C10: counterexample to the claim as stated.  A state whose id is
present but equal to the empty string is not identified by its id: the
produced node is identified by the list index instead. -/
theorem C10_empty_id_not_used :
    emptyIdStates.map (fun s => s.id) = [some ""] ∧
    (Frontend.createNodes emptyIdStates).map (fun nd => nd.id) = ["0"] ∧
    "0" ≠ "" := by
  refine ⟨rfl, rfl, by decide⟩

/-- Serializing then deserializing a state is the identity. -/
theorem stateFromDoc_stateToDoc (s : Frontend.WorkflowState) :
    Frontend.stateFromDoc (Frontend.stateToDoc s) = some s := rfl

/-- Decoding an array of serialized strings is the identity. -/
theorem mapOption_asStrList (cs : List String) :
    Doc.mapOption Doc.asStrList (cs.map DVal.str) = some cs := by
  induction cs with
  | nil => rfl
  | cons c cs ih => simp [Doc.mapOption, Doc.asStrList, ih]

/-- Serializing then deserializing a transition is the identity. -/
theorem transitionFromDoc_transitionToDoc (t : Frontend.WorkflowTransition) :
    Frontend.transitionFromDoc (Frontend.transitionToDoc t) = some t := by
  rcases t with ⟨i, n, de, f, to_, conds⟩
  cases conds with
  | none => rfl
  | some cs =>
      simp [Frontend.transitionToDoc, Frontend.transitionFromDoc, Doc.get,
        Doc.asStr, mapOption_asStrList]

/-- Round-tripping the status string is the identity. -/
theorem statusFromString_toString (s : Frontend.InstanceStatus) :
    Frontend.statusFromString s.toString = some s := by
  cases s <;> rfl

/-- Serializing then deserializing an instance is the identity. -/
theorem instanceFromDoc_instanceToDoc (i : Frontend.WorkflowInstance) :
    Frontend.instanceFromDoc (Frontend.instanceToDoc i) = some i := by
  rcases i with ⟨ii, w, c, dt, st, ca, ua⟩
  simp [Frontend.instanceToDoc, Frontend.instanceFromDoc, Doc.get,
    Doc.asStr, Doc.asObj, statusFromString_toString]

/-- Decoding a list of serialized embedded objects is the identity. -/
theorem mapOption_elemFromDoc {α : Type}
    (enc : α → List (String × DVal)) (dec : List (String × DVal) → Option α)
    (h : ∀ a, dec (enc a) = some a) (l : List α) :
    Doc.mapOption (Frontend.elemFromDoc dec)
      (l.map (fun a => DVal.obj (enc a))) = some l := by
  induction l with
  | nil => rfl
  | cons a l ih => simp [Doc.mapOption, Frontend.elemFromDoc, h, ih]

/-- Serializing then deserializing a definition is the identity. -/
theorem definitionFromDoc_definitionToDoc (d : Frontend.WorkflowDefinition) :
    Frontend.definitionFromDoc (Frontend.definitionToDoc d) = some d := by
  rcases d with ⟨i, n, de, v, sts, trs, ca, ua⟩
  simp [Frontend.definitionToDoc, Frontend.definitionFromDoc, Doc.get,
    Doc.asStr, Doc.asArr,
    mapOption_elemFromDoc Frontend.stateToDoc Frontend.stateFromDoc
      stateFromDoc_stateToDoc,
    mapOption_elemFromDoc Frontend.transitionToDoc Frontend.transitionFromDoc
      transitionFromDoc_transitionToDoc]

/-- C3: corrected form.  Serializing a `WorkflowDefinition` or a
`WorkflowInstance` to its structured document form and deserializing it
back is the identity on every observable field; the document, however, uses
the field names of the `apiService.ts` interfaces — `from_state_id` and
`to_state_id` for a transition, and `workflow_definition_id`, `data` and
`status` for an instance — not §3's `source_state_id`, `target_state_id`,
`definition_id` and `context`. -/
theorem C3_document_round_trip (d : Frontend.WorkflowDefinition)
    (i : Frontend.WorkflowInstance) (t : Frontend.WorkflowTransition) :
    Frontend.definitionFromDoc (Frontend.definitionToDoc d) = some d ∧
    Frontend.instanceFromDoc (Frontend.instanceToDoc i) = some i ∧
    Doc.get (Frontend.transitionToDoc t) "from_state_id" =
      some (.str t.from_state_id) ∧
    Doc.get (Frontend.transitionToDoc t) "to_state_id" =
      some (.str t.to_state_id) ∧
    Doc.get (Frontend.transitionToDoc t) "source_state_id" = none ∧
    Doc.get (Frontend.transitionToDoc t) "target_state_id" = none ∧
    Doc.get (Frontend.instanceToDoc i) "workflow_definition_id" =
      some (.str i.workflow_definition_id) ∧
    Doc.get (Frontend.instanceToDoc i) "data" = some (.obj i.data) ∧
    Doc.get (Frontend.instanceToDoc i) "status" =
      some (.str i.status.toString) ∧
    Doc.get (Frontend.instanceToDoc i) "definition_id" = none ∧
    Doc.get (Frontend.instanceToDoc i) "context" = none := by
  refine ⟨definitionFromDoc_definitionToDoc d,
    instanceFromDoc_instanceToDoc i, ?_, ?_, ?_, ?_, rfl, rfl, rfl, rfl, rfl⟩
  all_goals
    rcases t with ⟨ti, n, de, f, to_, conds⟩
  all_goals
    cases conds <;> rfl

/-- C3: counterexample to the claim as stated.  The serialized document of
a concrete transition has no `source_state_id` or `target_state_id` key
(its endpoint keys are `from_state_id`/`to_state_id`), and the document of
a concrete instance has no `definition_id` or `context` key (they are
`workflow_definition_id` and `data`). -/
theorem C3_field_names_differ :
    Doc.get (Frontend.transitionToDoc c3Transition) "source_state_id" =
      none ∧
    Doc.get (Frontend.transitionToDoc c3Transition) "target_state_id" =
      none ∧
    Doc.get (Frontend.instanceToDoc c3Instance) "definition_id" = none ∧
    Doc.get (Frontend.instanceToDoc c3Instance) "context" = none ∧
    Doc.get (Frontend.transitionToDoc c3Transition) "from_state_id" =
      some (.str "a") ∧
    Doc.get (Frontend.instanceToDoc c3Instance) "workflow_definition_id" =
      some (.str "w1") :=
  ⟨rfl, rfl, rfl, rfl, rfl, rfl⟩

/-- C4: whenever two states share an id, or a transition references a state
id that does not exist in the definition, or the number of start states is
not exactly one, validation produces an error finding and registration
fails with `InvalidDefinition`, so the registry never accepts such a
definition. -/
theorem C4_validation_rejects (d : Core.WorkflowDefinition)
    (h : Core.hasDup (Core.stateIds d) = true ∨
         (∃ t ∈ d.transitions,
            (Core.stateIds d).contains t.source_state_id = false ∨
            (Core.stateIds d).contains t.target_state_id = false) ∨
         (d.states.filter (fun s => s.kind = Core.StateKind.start)).length ≠
           1) :
    Core.register_definition d = .error .InvalidDefinition := by
  have hval : Core.hasError (Core.validate d) = true := by
    rcases h with h1 | h2 | h3
    · unfold Core.hasError Core.validate
      simp [List.any_append, h1]
    · obtain ⟨t, ht, hc⟩ := h2
      have hcond : ((Core.stateIds d).contains t.source_state_id &&
          (Core.stateIds d).contains t.target_state_id) = false := by
        rcases hc with hc | hc
        · rw [hc]; rfl
        · rw [hc, Bool.and_false]
      have hD : (d.transitions.filterMap (fun t =>
          if (Core.stateIds d).contains t.source_state_id &&
             (Core.stateIds d).contains t.target_state_id then none
          else some ({ severity := Core.Severity.error,
                       message := "transition references nonexistent state" } :
                     Core.Finding))).any
          (fun f => f.severity = Core.Severity.error) = true := by
        refine List.any_eq_true.mpr
          ⟨{ severity := Core.Severity.error,
             message := "transition references nonexistent state" },
           List.mem_filterMap.mpr ⟨t, ht, ?_⟩, by decide⟩
        simp only [hcond, Bool.false_eq_true, if_false]
      unfold Core.hasError Core.validate
      simp only [List.any_append, hD, Bool.or_true, Bool.true_or]
    · unfold Core.hasError Core.validate
      simp [List.any_append, h3]
  simp [Core.register_definition, hval]

/-- C4: witness at a concrete definition with zero start states. -/
theorem C4_validation_rejects_witness :
    (c4Definition.states.filter
        (fun s => s.kind = Core.StateKind.start)).length ≠ 1 ∧
    Core.register_definition c4Definition = .error .InvalidDefinition :=
  ⟨by decide, C4_validation_rejects c4Definition
    (Or.inr (Or.inr (by decide)))⟩

/-- Committing a transition appends exactly one history entry, with
non-null `from_state_id` and `transition_id`. -/
theorem commitTransition_history (inst : Core.Instance) (t : Core.Transition)
    (ctx : List (String × DVal)) (ts : Nat) :
    (Core.commitTransition inst t ctx ts).history = inst.history ++
      [{ from_state_id := some inst.current_state_id,
         to_state_id := t.target_state_id,
         transition_id := some t.id, timestamp := ts,
         context_snapshot := ctx }] := rfl

/-- The history before a commit is a prefix of the history after it. -/
theorem commitTransition_history_prefix (inst : Core.Instance)
    (t : Core.Transition) (ctx : List (String × DVal)) (ts : Nat) :
    inst.history <+: (Core.commitTransition inst t ctx ts).history := by
  rw [commitTransition_history]
  exact List.prefix_append _ _

/-- C6: in every reachable instance's history, `from_state_id` and
`transition_id` are null exactly on the single first entry, written at
creation, and non-null on every later entry, each appended by a committed
transition; and committing never mutates or removes existing entries —
the prior history is always a prefix of the new one. -/
theorem C6_history_entries (d : Core.WorkflowDefinition)
    (inst : Core.Instance) (h : Core.ReachableInstance d inst) :
    ((inst.history.take 1).map
        (fun e => (e.from_state_id, e.transition_id)) = [(none, none)]) ∧
    (∀ e ∈ inst.history.drop 1,
        e.from_state_id.isSome = true ∧ e.transition_id.isSome = true) ∧
    (∀ (t : Core.Transition) (ctx : List (String × DVal)) (ts : Nat),
        inst.history <+: (Core.commitTransition inst t ctx ts).history) := by
  induction h with
  | created iid ctx ts inst hc =>
      unfold Core.create_instance at hc
      cases hs : Core.startState d with
      | none => rw [hs] at hc; exact absurd hc (by simp)
      | some s0 =>
          rw [hs] at hc
          injection hc with hc
          subst hc
          exact ⟨rfl, by simp, fun t ctx2 ts2 =>
            commitTransition_history_prefix _ t ctx2 ts2⟩
  | stepped inst t ctx ts hr ih =>
      obtain ⟨ih1, ih2, _⟩ := ih
      have hne : inst.history ≠ [] := by
        intro he
        rw [he] at ih1
        simp at ih1
      have hlen : 1 ≤ inst.history.length :=
        Nat.succ_le_of_lt (List.length_pos.mpr hne)
      refine ⟨?_, ?_, fun t2 ctx2 ts2 =>
        commitTransition_history_prefix _ t2 ctx2 ts2⟩
      · rw [commitTransition_history, List.take_append_eq_append_take,
          Nat.sub_eq_zero_of_le hlen, List.take_zero, List.append_nil]
        exact ih1
      · rw [commitTransition_history, List.drop_append_eq_append_drop,
          Nat.sub_eq_zero_of_le hlen, List.drop_zero]
        intro e he
        rcases List.mem_append.mp he with he | he
        · exact ih2 e he
        · rw [List.mem_singleton.mp he]
          exact ⟨rfl, rfl⟩

/-- C6: witness at the concrete instance freshly created from
`c2Definition`. -/
theorem C6_history_entries_witness :
    Core.create_instance c2Definition "i6" [] 0 = some c6Instance ∧
    (((c6Instance.history.take 1).map
        (fun e => (e.from_state_id, e.transition_id)) = [(none, none)]) ∧
     (∀ e ∈ c6Instance.history.drop 1,
        e.from_state_id.isSome = true ∧ e.transition_id.isSome = true) ∧
     (∀ (t : Core.Transition) (ctx : List (String × DVal)) (ts : Nat),
        c6Instance.history <+:
          (Core.commitTransition c6Instance t ctx ts).history)) :=
  ⟨rfl, C6_history_entries c2Definition c6Instance
    (.created "i6" [] 0 c6Instance rfl)⟩

/-- The run loop grows the history by at most its hop budget. -/
theorem runLoop_history_le (n : Nat) :
    ∀ (rules : List Core.Rule) (d : Core.WorkflowDefinition)
      (inst : Core.Instance) (ts : Nat),
      ((Core.runLoop rules d inst n ts).inst).history.length ≤
        inst.history.length + n := by
  induction n with
  | zero =>
      intro rules d inst ts
      unfold Core.runLoop
      cases hm : Core.firstMatch rules d inst with
      | error e => simp [Core.RunResult.inst]
      | ok o => cases o <;> simp [Core.RunResult.inst]
  | succ b ih =>
      intro rules d inst ts
      unfold Core.runLoop
      cases hm : Core.firstMatch rules d inst with
      | error e => simp [Core.RunResult.inst]
      | ok o =>
          cases o with
          | none => simp [Core.RunResult.inst]
          | some t =>
              simp only []
              by_cases he : Core.isEndState d
                  (Core.commitTransition inst t inst.context
                    (ts + 1)).current_state_id = true
              · simp [he, Core.RunResult.inst, commitTransition_history]
              · simp only [he, if_false, Bool.false_eq_true]
                have h1 := ih rules d
                  (Core.commitTransition inst t inst.context (ts + 1)) (ts + 1)
                have h2 : (Core.commitTransition inst t inst.context
                    (ts + 1)).history.length = inst.history.length + 1 := by
                  rw [commitTransition_history]
                  simp
                omega

/-- When the run loop reports `MaxHopsExceeded`, the instance it leaves
behind has committed exactly the budgeted number of transitions and its
status is untouched. -/
theorem runLoop_maxHops_exact (n : Nat) :
    ∀ (rules : List Core.Rule) (d : Core.WorkflowDefinition)
      (inst : Core.Instance) (ts : Nat) (i : Core.Instance),
      Core.runLoop rules d inst n ts = .maxHopsExceeded i →
        i.history.length = inst.history.length + n ∧
        i.status = inst.status := by
  induction n with
  | zero =>
      intro rules d inst ts i h
      unfold Core.runLoop at h
      cases hm : Core.firstMatch rules d inst with
      | error e => rw [hm] at h; simp at h
      | ok o =>
          cases o with
          | none => rw [hm] at h; simp at h
          | some t =>
              rw [hm] at h
              simp only [] at h
              injection h with h
              subst h
              exact ⟨by omega, rfl⟩
  | succ b ih =>
      intro rules d inst ts i h
      unfold Core.runLoop at h
      cases hm : Core.firstMatch rules d inst with
      | error e => rw [hm] at h; simp at h
      | ok o =>
          cases o with
          | none => rw [hm] at h; simp at h
          | some t =>
              rw [hm] at h
              simp only [] at h
              by_cases he : Core.isEndState d
                  (Core.commitTransition inst t inst.context
                    (ts + 1)).current_state_id = true
              · rw [if_pos he] at h
                simp at h
              · rw [if_neg he] at h
                have h1 := ih rules d
                  (Core.commitTransition inst t inst.context (ts + 1))
                  (ts + 1) i h
                have h2 : (Core.commitTransition inst t inst.context
                    (ts + 1)).history.length = inst.history.length + 1 := by
                  rw [commitTransition_history]
                  simp
                have h3 : (Core.commitTransition inst t inst.context
                    (ts + 1)).status = inst.status := rfl
                refine ⟨by omega, ?_⟩
                rw [h1.2, h3]

/-- C8: `run_instance` terminates with at most `max_hops` committed
transitions — the history never grows by more than the budget; when the
budget is exceeded it reports `MaxHopsExceeded`, leaving the instance at
its last committed state with exactly `max_hops` commits and its status
untouched; and on the unconditional self-cycle `X→X` with `max_hops = 5`
it fails after exactly 5 commits, the final history holding 1 initial
entry plus 5. -/
theorem C8_run_instance_budget :
    (∀ (rules : List Core.Rule) (d : Core.WorkflowDefinition)
       (inst : Core.Instance) (n ts : Nat),
       ((Core.run_instance rules d inst n ts).inst).history.length ≤
         inst.history.length + n) ∧
    (∀ (rules : List Core.Rule) (d : Core.WorkflowDefinition)
       (inst : Core.Instance) (n ts : Nat) (i : Core.Instance),
       Core.run_instance rules d inst n ts = .maxHopsExceeded i →
         i.history.length = inst.history.length + n ∧
         i.status = inst.status) ∧
    Core.create_instance cycleDefinition "i8" [] 0 = some cycleInstance ∧
    Core.run_instance [] cycleDefinition cycleInstance 5 0 =
      .maxHopsExceeded cycleFinal ∧
    cycleFinal.history.length = 1 + 5 ∧
    cycleFinal.current_state_id = cycleInstance.current_state_id ∧
    cycleFinal.status = .active := by
  refine ⟨fun rules d inst n ts => runLoop_history_le n rules d inst ts,
    fun rules d inst n ts i h => runLoop_maxHops_exact n rules d inst ts i h,
    rfl, rfl, rfl, rfl, rfl⟩

/-- C8: witness for the `MaxHopsExceeded` half at the concrete five-hop
cycle run. -/
theorem C8_run_instance_budget_witness :
    Core.run_instance [] cycleDefinition cycleInstance 5 0 =
      .maxHopsExceeded cycleFinal ∧
    (cycleFinal.history.length = cycleInstance.history.length + 5 ∧
     cycleFinal.status = cycleInstance.status) :=
  ⟨rfl, C8_run_instance_budget.2.1 [] cycleDefinition cycleInstance 5 0
    cycleFinal rfl⟩

/-- C7: counterexample to the claim as stated.  At a context whose field
value is a number rather than a list, both evaluations surface
`EvaluationError` (§4.1: a non-list field value is never silently coerced),
so neither `returns true` nor `returns false` holds for every field
value. -/
theorem C7_nonlist_field_error :
    Core.evalCondition scalarFieldContext
      (.listOp "x" .contains_all []) = .error .EvaluationError ∧
    Core.evalCondition scalarFieldContext
      (.listOp "x" .contains_any []) = .error .EvaluationError :=
  ⟨rfl, rfl⟩

end PACheck
